import Mathlib

/-!
Verification development for the cvs-screener repository: a shallow
embedding, in Lean, of the metadata-extraction, indexing and search logic
of `src/indexer.py` and `src/server.py`, together with theorems settling
the specification's claims about that logic.

External collaborators (the PDF text extractor, the LLM completion
endpoint, the embedding endpoint, the Qdrant vector store and the
filesystem) are modelled as explicit parameters; the Python code's own
control flow, defaulting, filter translation and error wrapping are
translated function by function from the source.
-/

/-- JSON values, the dynamic data the Python code passes around
(parsed completion responses, request bodies, Qdrant payloads).
Objects are insertion-ordered key/value lists, as Python dicts are. -/
inductive Json where
  | null : Json
  | bool : Bool → Json
  | num  : Int → Json
  | str  : String → Json
  | arr  : List Json → Json
  | obj  : List (String × Json) → Json
deriving Repr

/-- First-match lookup in an insertion-ordered dict, `d[k]` / `k in d`
on a Python dict modelled as an association list. -/
def dlookup (k : String) : List (String × Json) → Option Json
  | [] => none
  | (k', v) :: rest => if k' = k then some v else dlookup k rest

/-- Python dict merge `\x7b**a, **b\x7d`: keys of `a` in order, each taking
`b`'s value when `b` also binds it, followed by the entries of `b` whose
keys are absent from `a`, in `b`'s order. -/
def dictMerge (a b : List (String × Json)) : List (String × Json) :=
  (a.map fun p => (p.1, ((dlookup p.1 b).getD p.2))) ++
    b.filter fun p => (dlookup p.1 a).isNone

/-- The `expected_fields` default template of
`MetaDataExtractor.extract_metadata` (src/indexer.py lines 109-118). -/
def expectedFields : List (String × Json) :=
  [("name", Json.null),
   ("age", Json.null),
   ("years_of_experience", Json.null),
   ("skills", Json.arr []),
   ("languages", Json.arr []),
   ("education", Json.arr []),
   ("current_role", Json.null),
   ("location", Json.null)]

/-- Model of `MetaDataExtractor.extract_metadata` (src/indexer.py lines 96-126).
The argument is the outcome of `_call_openai`: an error when the
completion call failed or its content did not parse as JSON, otherwise
the parsed JSON value.  A successful parse that is not an object makes
the Python dict-splat `\x7b**expected_fields, **metadata\x7d` raise, which the
surrounding `except` re-wraps, so that case is an error too. -/
def extract_metadata (callResult : Except String Json) : Except String Json :=
  match callResult with
  | .error e => .error ("Failed to extract metadata: " ++ e)
  | .ok m =>
    match m with
    | .obj fields => .ok (.obj (dictMerge expectedFields fields))
    | _ => .error "Failed to extract metadata: mapping expected"

theorem dlookup_append (k : String) (xs ys : List (String × Json)) :
    dlookup k (xs ++ ys) =
      match dlookup k xs with
      | some v => some v
      | none => dlookup k ys := by
  induction xs with
  | nil => simp [dlookup]
  | cons p rest ih =>
    obtain ⟨k', v⟩ := p
    by_cases h : k' = k <;> simp [dlookup, h, ih]

theorem dlookup_mapMerge (a b : List (String × Json)) (k : String) :
    dlookup k (a.map fun p => (p.1, ((dlookup p.1 b).getD p.2))) =
      (dlookup k a).map fun v => (dlookup k b).getD v := by
  induction a with
  | nil => simp [dlookup]
  | cons p rest ih =>
    obtain ⟨k', v⟩ := p
    by_cases h : k' = k
    · subst h; simp [dlookup]
    · simp [dlookup, h, ih]

theorem dlookup_filterKey (b : List (String × Json)) (q : String → Bool)
    (k : String) :
    dlookup k (b.filter fun p => q p.1) =
      if q k then dlookup k b else none := by
  induction b with
  | nil => simp [dlookup]
  | cons p rest ih =>
    obtain ⟨k', v⟩ := p
    by_cases hk : k' = k
    · subst hk
      by_cases hq : q k' <;> simp [dlookup, hq, ih]
    · by_cases hq : q k' <;> simp [dlookup, hk, hq, ih]

theorem dlookup_dictMerge (a b : List (String × Json)) (k : String) :
    dlookup k (dictMerge a b) =
      match dlookup k a with
      | some v => some ((dlookup k b).getD v)
      | none => dlookup k b := by
  unfold dictMerge
  rw [dlookup_append, dlookup_mapMerge]
  cases h : dlookup k a with
  | none =>
    simp only [Option.map_none]
    rw [dlookup_filterKey b (fun s => (dlookup s a).isNone)]
    simp [h]
  | some v => simp

theorem dlookup_expectedFields {p : String × Json} (hp : p ∈ expectedFields) :
    dlookup p.1 expectedFields = some p.2 := by
  simp only [expectedFields, List.mem_cons, List.not_mem_nil, or_false] at hp
  rcases hp with rfl | rfl | rfl | rfl | rfl | rfl | rfl | rfl <;> rfl

/-- C1 (amended): on every completion result that parses as a JSON
object, `extract_metadata` succeeds and returns the parsed object merged
over the default template: every template field is present, defaulted to
`null` / the empty list exactly when the parsed object omits it; every
field of the parsed object keeps its parsed value; and the output's keys
are the eight template keys followed by the parsed object's extra keys
(so the field set is a superset of, not necessarily equal to, the fixed
set). -/
theorem extract_metadata_merges_over_template
    (fields : List (String × Json)) :
    extract_metadata (.ok (.obj fields)) =
      .ok (.obj (dictMerge expectedFields fields)) ∧
    (∀ p ∈ expectedFields,
      dlookup p.1 (dictMerge expectedFields fields) =
        some ((dlookup p.1 fields).getD p.2)) ∧
    (∀ k v, dlookup k fields = some v →
      dlookup k (dictMerge expectedFields fields) = some v) ∧
    (dictMerge expectedFields fields).map Prod.fst =
      expectedFields.map Prod.fst ++
        (fields.filter fun q => (dlookup q.1 expectedFields).isNone).map
          Prod.fst := by
  refine ⟨rfl, ?_, ?_, ?_⟩
  · intro p hp
    rw [dlookup_dictMerge, dlookup_expectedFields hp]
  · intro k v hv
    rw [dlookup_dictMerge]
    cases h : dlookup k expectedFields <;> simp [h, hv]
  · unfold dictMerge
    simp

/-- Witness for the amended C1 at the spec's own scenario input: the
completion returns name/years/skills only; the output defaults `age` to
`null`, `languages` to `[]`, and keeps `name` as parsed. -/
theorem extract_metadata_merges_over_template_witness :
    dlookup "age"
        (dictMerge expectedFields
          [("name", Json.str "Jane Doe"),
           ("years_of_experience", Json.num 5),
           ("skills", Json.arr [Json.str "Python", Json.str "AWS"])]) =
      some Json.null ∧
    dlookup "languages"
        (dictMerge expectedFields
          [("name", Json.str "Jane Doe"),
           ("years_of_experience", Json.num 5),
           ("skills", Json.arr [Json.str "Python", Json.str "AWS"])]) =
      some (Json.arr []) ∧
    dlookup "name"
        (dictMerge expectedFields
          [("name", Json.str "Jane Doe"),
           ("years_of_experience", Json.num 5),
           ("skills", Json.arr [Json.str "Python", Json.str "AWS"])]) =
      some (Json.str "Jane Doe") := by
  refine ⟨?_, ?_, ?_⟩
  · exact (extract_metadata_merges_over_template _).2.1 ("age", Json.null)
      (by simp [expectedFields])
  · exact (extract_metadata_merges_over_template _).2.1
      ("languages", Json.arr []) (by simp [expectedFields])
  · exact (extract_metadata_merges_over_template _).2.2.1 "name"
      (Json.str "Jane Doe") rfl

/-- C1 counterexample: when the parsed object carries a key outside the
fixed field set, `extract_metadata` keeps it, so the output does NOT
contain exactly the fixed field set — it contains a ninth field. -/
theorem extract_metadata_keeps_extra_fields :
    extract_metadata (.ok (.obj [("favorite_color", Json.str "blue")])) =
      .ok (.obj (expectedFields ++ [("favorite_color", Json.str "blue")])) ∧
    (expectedFields ++ [("favorite_color", Json.str "blue")]).map Prod.fst ≠
      expectedFields.map Prod.fst := by
  constructor
  · rfl
  · simp [expectedFields]

/-! ## Vector store model

`index_file` upserts points `\x7bid, vector, payload\x7d` into Qdrant and
`search_documents` searches them with `FieldCondition(key, MatchValue)`
filters.  Qdrant resolves a condition's `key` as a dot-separated path
from the TOP LEVEL of the payload object, matches `MatchValue` against
keyword / integer / bool payload values (or any element of an array of
them), and returns up to `limit` matching points ordered by descending
similarity score. -/

/-- A stored Qdrant point (`models.PointStruct`).  Embedding vectors are
opaque to every claim here, so their entries are integers. -/
structure Point where
  id : String
  vector : List Int
  payload : List (String × Json)
deriving Repr

/-- A search hit: id, similarity score and payload. -/
structure Hit where
  id : String
  score : Int
  payload : List (String × Json)
deriving Repr

/-- Equality of a payload value with a `MatchValue` (Qdrant match values
are keywords, integers or booleans). -/
def primEq : Json → Json → Bool
  | .str a, .str b => a == b
  | .num a, .num b => a == b
  | .bool a, .bool b => a == b
  | _, _ => false

/-- The `MatchValue` semantics: the payload value equals the match value, or
is an array one of whose elements equals it. -/
def matchValue (pv v : Json) : Bool :=
  primEq pv v ||
    (match pv with
     | .arr xs => xs.any fun x => primEq x v
     | _ => false)

/-- Walk a dot-separated key path down nested payload objects. -/
def payloadGet : Json → List String → Option Json
  | j, [] => some j
  | .obj fields, k :: rest =>
    match dlookup k fields with
    | some v => payloadGet v rest
    | none => none
  | _, _ :: _ => none

/-- Split a list of characters at every occurrence of `c`. -/
def splitOnChar (c : Char) (cs : List Char) : List (List Char) :=
  match cs with
  | [] => [[]]
  | x :: xs =>
    let r := splitOnChar c xs
    if x = c then [] :: r
    else
      match r with
      | [] => [[x]]
      | g :: gs => (x :: g) :: gs

/-- A Qdrant condition key as a path: the key split on dots. -/
def keyPath (k : String) : List String :=
  (splitOnChar '.' k.data).map fun g => String.mk g

/-- One `FieldCondition(key, MatchValue(value))` evaluated against a
point's payload. -/
def fieldConditionMatch (payload : List (String × Json)) (key : String)
    (v : Json) : Bool :=
  match payloadGet (.obj payload) (keyPath key) with
  | some pv => matchValue pv v
  | none => false

/-- A `models.Filter(must=...)` as the conjunction of its conditions;
`none` is the absent filter, which restricts nothing. -/
def filterMatch (payload : List (String × Json))
    (filt : Option (List (String × Json))) : Bool :=
  match filt with
  | none => true
  | some conds => conds.all fun c => fieldConditionMatch payload c.1 c.2

/-- Insert a hit into a list sorted by descending score. -/
def insertHit (h : Hit) : List Hit → List Hit
  | [] => [h]
  | h' :: hs => if h'.score < h.score then h :: h' :: hs else h' :: insertHit h hs

/-- Sort hits by descending score. -/
def sortHits : List Hit → List Hit
  | [] => []
  | h :: hs => insertHit h (sortHits hs)

/-- Model of `qdrant_client.search(collection, query_vector, query_filter, limit)`:
score every point matching the filter against the query vector (`score`
is the similarity of a stored vector with the query vector), order by
descending score, return the first `limit`. -/
def qdrantSearch (store : List Point) (score : List Int → Int)
    (filt : Option (List (String × Json))) (limit : Nat) : List Hit :=
  (sortHits ((store.filter fun p => filterMatch p.payload filt).map
    fun p => Hit.mk p.id (score p.vector) p.payload)).take limit

/-! ## The search endpoint (src/server.py, `search_documents`) -/

/-- External calls issued while serving a search request. -/
inductive QCall where
  | embedCall (input : Json)
  | searchCall (filt : Option (List (String × Json))) (limit : Nat)
deriving Repr

/-- Outcome of a search request: HTTP status, the hits of a success
response, and the external calls made along the way. -/
structure SearchOutcome where
  status : Nat
  hits : List Hit
  calls : List QCall
deriving Repr

/-- The `limit` value handed to the store must be an integer; anything
else makes the store call raise (caught as a 500). -/
def jsonToLimit : Json → Option Nat
  | .num n => some n.toNat
  | _ => none

/-- The part of `search_documents` after the `'query' not in data`
validation check (src/server.py lines 86-129): read `limit` (default 4)
and `filters` (default empty) from the body, translate the filter items
into must-match conditions (an empty item list yields the absent
filter), embed the query text, then search.  Any exception on this path
— a non-object `filters` value, a failing embedding call, a `limit` the
store rejects — is caught by the endpoint's `except` and served as a
500. -/
def search_after_validation (embed : Json → Except String (List Int))
    (sim : List Int → List Int → Int) (store : List Point)
    (data : List (String × Json)) (queryText : Json) : SearchOutcome :=
  match (dlookup "filters" data).getD (.obj []) with
  | .obj filterItems =>
    match embed queryText with
    | .error _ => ⟨500, [], [.embedCall queryText]⟩
    | .ok qv =>
      match jsonToLimit ((dlookup "limit" data).getD (.num 4)) with
      | none => ⟨500, [], [.embedCall queryText]⟩
      | some limit =>
        ⟨200,
         qdrantSearch store (sim qv)
           (if filterItems.isEmpty then none else some filterItems) limit,
         [.embedCall queryText,
          .searchCall (if filterItems.isEmpty then none else some filterItems)
            limit]⟩
  | _ => ⟨500, [], []⟩

/-- Model of `search_documents` (src/server.py lines 72-135).  `body` is the
parsed JSON object of the request, `none` when there is no body (or the
body is JSON `null`); an empty object is falsy, so it fails the
`if not data` check just like a missing body.  `embed` is the embedding
endpoint (it may fail), `sim` scores a stored vector against a query
vector, `store` is the collection's contents. -/
def search_documents (embed : Json → Except String (List Int))
    (sim : List Int → List Int → Int) (store : List Point)
    (body : Option (List (String × Json))) : SearchOutcome :=
  match body with
  | none => ⟨400, [], []⟩
  | some data =>
    if data.isEmpty then ⟨400, [], []⟩
    else
      match dlookup "query" data with
      | none => ⟨400, [], []⟩
      | some queryText => search_after_validation embed sim store data queryText

/-- Remove every binding of a key from a dict (used only to STATE that a
request without a `filters` key behaves like one with an empty map). -/
def eraseKey (k : String) (l : List (String × Json)) : List (String × Json) :=
  l.filter fun p => decide (p.1 ≠ k)

theorem dlookup_eraseKey (k k' : String) (l : List (String × Json)) :
    dlookup k' (eraseKey k l) = if k' = k then none else dlookup k' l := by
  unfold eraseKey
  rw [dlookup_filterKey l (fun s => decide (s ≠ k))]
  by_cases h : k' = k <;> simp [h]

theorem search_after_validation_status_ne_400
    (embed : Json → Except String (List Int))
    (sim : List Int → List Int → Int) (store : List Point)
    (data : List (String × Json)) (queryText : Json) :
    (search_after_validation embed sim store data queryText).status ≠ 400 := by
  unfold search_after_validation
  cases (dlookup "filters" data).getD (Json.obj []) with
  | obj filterItems =>
    cases embed queryText with
    | error e => simp
    | ok qv =>
      cases jsonToLimit ((dlookup "limit" data).getD (Json.num 4)) with
      | none => simp
      | some limit => simp
  | null => simp
  | bool b => simp
  | num n => simp
  | str s => simp
  | arr xs => simp

/-- C3 (amended): the endpoint answers 400 exactly when the request has
no (or a null/empty) body or the body lacks the `query` key, and then it
makes no external call; a body whose `query` value is present — even the
empty string or null — passes validation (and so reaches the embedding
call, as the separate counterexample shows). -/
theorem search_validation_400_iff (embed : Json → Except String (List Int))
    (sim : List Int → List Int → Int) (store : List Point)
    (body : Option (List (String × Json))) :
    ((search_documents embed sim store body).status = 400 ↔
      body = none ∨ body = some [] ∨
        ∃ data, body = some data ∧ dlookup "query" data = none) ∧
    ((search_documents embed sim store body).status = 400 →
      (search_documents embed sim store body).calls = []) := by
  cases body with
  | none => simp [search_documents]
  | some data =>
    cases data with
    | nil => simp [search_documents]
    | cons p rest =>
      have hne : (p :: rest).isEmpty = false := rfl
      cases hq : dlookup "query" (p :: rest) with
      | none => simp [search_documents, hne, hq]
      | some qt =>
        have h4 :=
          search_after_validation_status_ne_400 embed sim store (p :: rest) qt
        simp [search_documents, hne, hq, h4]

/-- A fixed embedding collaborator that always succeeds (used for the
concrete counterexamples and witnesses). -/
def embedOk : Json → Except String (List Int) := fun _ => .ok [1]

/-- A fixed similarity scorer (used for the concrete counterexamples and
witnesses). -/
def simConst : List Int → List Int → Int := fun _ _ => 1

/-- C3 counterexample: a request whose `query` is the EMPTY STRING is
not rejected — `'query' not in data` is false, so the endpoint proceeds,
calls the embedding provider on `""`, and answers 200. -/
theorem search_empty_query_not_rejected :
    (search_documents embedOk simConst []
        (some [("query", Json.str "")])).status = 200 ∧
    QCall.embedCall (Json.str "") ∈
      (search_documents embedOk simConst []
        (some [("query", Json.str "")])).calls := by
  exact ⟨rfl, List.Mem.head _⟩

/-- Witness for the amended C3 at a concrete input: a body that lacks
the `query` key is answered 400 with no external calls. -/
theorem search_validation_400_iff_witness :
    (search_documents embedOk simConst []
        (some [("limit", Json.num 2)])).status = 400 ∧
    (search_documents embedOk simConst []
        (some [("limit", Json.num 2)])).calls = [] := by
  refine ⟨?_, ?_⟩
  · exact (search_validation_400_iff embedOk simConst []
      (some [("limit", Json.num 2)])).1.mpr (Or.inr (Or.inr ⟨_, rfl, rfl⟩))
  · exact (search_validation_400_iff embedOk simConst []
      (some [("limit", Json.num 2)])).2 rfl

/-- C4: a request whose `filters` value is the empty map produces
exactly the same outcome — status, ranked hits and external calls — as
the same request with the `filters` key absent: both translate to the
absent ("no restriction") store filter. -/
theorem search_empty_filters_eq_absent_filters
    (embed : Json → Except String (List Int))
    (sim : List Int → List Int → Int) (store : List Point)
    (data : List (String × Json))
    (h : dlookup "filters" data = some (Json.obj [])) :
    search_documents embed sim store (some data) =
      search_documents embed sim store (some (eraseKey "filters" data)) := by
  have hda : data.isEmpty = false := by
    cases hd : data with
    | nil => rw [hd] at h; simp [dlookup] at h
    | cons p rest => rfl
  have hq : dlookup "query" (eraseKey "filters" data) = dlookup "query" data := by
    rw [dlookup_eraseKey]; simp
  have hl : dlookup "limit" (eraseKey "filters" data) = dlookup "limit" data := by
    rw [dlookup_eraseKey]; simp
  have hf : dlookup "filters" (eraseKey "filters" data) = none := by
    rw [dlookup_eraseKey]; simp
  cases hqd : dlookup "query" data with
  | none =>
    by_cases he : (eraseKey "filters" data).isEmpty <;>
      simp [search_documents, hda, hq, hqd, he]
  | some qt =>
    have hee : (eraseKey "filters" data).isEmpty = false := by
      cases hed : eraseKey "filters" data with
      | nil => rw [hed] at hq; rw [hqd] at hq; simp [dlookup] at hq
      | cons p rest => rfl
    simp only [search_documents, hda, hq, hqd, hee, Bool.false_eq_true,
      if_false]
    unfold search_after_validation
    rw [hl, hf, h]
    simp

/-- Witness for C4 at a concrete input: empty `filters` map versus no
`filters` key, same query and limit, identical outcome. -/
theorem search_empty_filters_eq_absent_filters_witness :
    search_documents embedOk simConst []
        (some [("query", Json.str "q"), ("limit", Json.num 2),
               ("filters", Json.obj [])]) =
      search_documents embedOk simConst []
        (some (eraseKey "filters"
          [("query", Json.str "q"), ("limit", Json.num 2),
           ("filters", Json.obj [])])) :=
  search_empty_filters_eq_absent_filters embedOk simConst [] _ rfl

/-- A stored payload exactly as `Indexer.index_file` builds it: the
extracted metadata lives UNDER the payload key `metadata`. -/
def remotePayload : List (String × Json) :=
  [("text", Json.str "Jane Doe, Python backend engineer, Remote"),
   ("filename", Json.str "jane.pdf"),
   ("filepath", Json.str "cvs/jane.pdf"),
   ("metadata", Json.obj
     [("name", Json.str "Jane Doe"),
      ("location", Json.str "Remote")])]

/-- A store holding one record whose metadata has location `Remote`. -/
def remoteStore : List Point := [⟨"id-1", [1], remotePayload⟩]

/-- The spec's scenario request: filter key `location`. -/
def locationFilterBody : List (String × Json) :=
  [("query", Json.str "python backend engineer"),
   ("limit", Json.num 2),
   ("filters", Json.obj [("location", Json.str "Remote")])]

/-- The same request with the nested key `metadata.location`. -/
def metadataLocationFilterBody : List (String × Json) :=
  [("query", Json.str "python backend engineer"),
   ("limit", Json.num 2),
   ("filters", Json.obj [("metadata.location", Json.str "Remote")])]

/-- C2 (code bug): the endpoint forwards the filter key verbatim, but
`index_file` nests the extracted metadata under the payload key
`metadata`, and the store resolves a condition key from the payload's
top level.  So the spec-scenario request with filter
`location = "Remote"` returns NO hits (status 200, empty data) against
a store whose only record has metadata location `Remote` — while the
nested key `metadata.location` does reach that record, confirming the
emptiness comes from the key mismatch, not from the store model. -/
theorem search_location_filter_misses_nested_metadata :
    dlookup "location"
        [("name", Json.str "Jane Doe"), ("location", Json.str "Remote")] =
      some (Json.str "Remote") ∧
    (search_documents embedOk simConst remoteStore
        (some locationFilterBody)).status = 200 ∧
    (search_documents embedOk simConst remoteStore
        (some locationFilterBody)).hits = [] ∧
    (search_documents embedOk simConst remoteStore
        (some metadataLocationFilterBody)).hits =
      [⟨"id-1", 1, remotePayload⟩] :=
  ⟨rfl, rfl, rfl, rfl⟩

/-! ## The ingestion pipeline (src/indexer.py, `Indexer`) -/

/-- Python exception classes distinguished by the pipeline:
`FileNotFoundError` versus every other `Exception` (extraction wraps,
metadata wraps, HTTP errors), each carrying its message. -/
inductive PyErr where
  | notFound (msg : String)
  | exc (msg : String)
deriving Repr

/-- The filesystem as the pipeline sees it: `os.path.exists` and
`os.listdir`. -/
structure FileSystem where
  pathExists : String → Bool
  listdir : String → List String

/-- The external collaborators of one ingestion: PDF text extraction
(PyPDF2), the metadata completion call (`_call_openai`, yielding parsed
JSON or a failure) and the embedding endpoint.  Each may fail with a
message. -/
structure Collab where
  extractText : String → Except String String
  completionJson : String → Except String Json
  embed : String → Except String (List Int)

/-- Collaborator calls issued while indexing, in order. -/
inductive Call where
  | extractTextCall (path : String)
  | completionCall (text : String)
  | embedCall (text : String)
  | upsertCall (point : Point)
deriving Repr

/-- Outcome of an ingestion: the raised exception if any, the vector
store contents afterwards, and the collaborator calls made. -/
structure IndexResult where
  err : Option PyErr
  store : List Point
  trace : List Call
deriving Repr

/-- Model of `os.path.basename`: the part after the last slash. -/
def basename (p : String) : String :=
  ((p.splitOn "/").getLastD "")

/-- Model of `Indexer.index_file` (src/indexer.py lines 225-262): check the path
exists, extract the text, extract metadata from it, embed it, then
upsert one point whose payload holds text, filename, filepath and — 
under the key `metadata` — the extracted record.  Any step's failure
propagates and nothing after it runs.  `pid` is the fresh UUID. -/
def index_file (c : Collab) (fs : FileSystem) (pid : String) (path : String)
    (store : List Point) : IndexResult :=
  if fs.pathExists path then
    match c.extractText path with
    | .error e =>
      ⟨some (.exc ("Error extracting text from PDF " ++ path ++ ": " ++ e)),
       store, [.extractTextCall path]⟩
    | .ok text =>
      match extract_metadata (c.completionJson text) with
      | .error e =>
        ⟨some (.exc e), store, [.extractTextCall path, .completionCall text]⟩
      | .ok metadata =>
        match c.embed text with
        | .error e =>
          ⟨some (.exc e), store,
           [.extractTextCall path, .completionCall text, .embedCall text]⟩
        | .ok embedding =>
          ⟨none,
           store ++
             [⟨pid, embedding,
               [("text", Json.str text),
                ("filename", Json.str (basename path)),
                ("filepath", Json.str path),
                ("metadata", metadata)]⟩],
           [.extractTextCall path, .completionCall text, .embedCall text,
            .upsertCall
              ⟨pid, embedding,
               [("text", Json.str text),
                ("filename", Json.str (basename path)),
                ("filepath", Json.str path),
                ("metadata", metadata)]⟩]⟩
  else ⟨some (.notFound ("File not found: " ++ path)), store, []⟩

/-- Python `filename.endswith('.pdf')`, on the string's characters. -/
def pyEndsWith (s suffix : String) : Bool :=
  suffix.data.isSuffixOf s.data

/-- The loop body of `Indexer.index_directory` (src/indexer.py lines
274-280) over a directory listing: each entry ending in `.pdf` is
indexed with a fresh id (`k` counts the ids consumed so far); the first
failure stops the loop and propagates.  Other entries are skipped. -/
def index_dir_go (c : Collab) (fs : FileSystem) (genId : Nat → String)
    (dir : String) : List String → Nat → List Point → IndexResult
  | [], _, store => ⟨none, store, []⟩
  | f :: rest, k, store =>
    if pyEndsWith f ".pdf" then
      match index_file c fs (genId k) (dir ++ "/" ++ f) store with
      | ⟨some e, store', calls⟩ => ⟨some e, store', calls⟩
      | ⟨none, store', calls⟩ =>
        let r := index_dir_go c fs genId dir rest (k + 1) store'
        ⟨r.err, r.store, calls ++ r.trace⟩
    else index_dir_go c fs genId dir rest k store

/-- Model of `Indexer.index_directory` (src/indexer.py lines 264-280). -/
def index_directory (c : Collab) (fs : FileSystem) (genId : Nat → String)
    (dir : String) (store : List Point) : IndexResult :=
  if fs.pathExists dir then
    index_dir_go c fs genId dir (fs.listdir dir) 0 store
  else ⟨some (.notFound ("Directory not found: " ++ dir)), store, []⟩

/-- A filesystem on which no path exists. -/
def fsEmpty : FileSystem := ⟨fun _ => false, fun _ => []⟩

/-- A filesystem on which every path exists and directories are empty. -/
def fsAll : FileSystem := ⟨fun _ => true, fun _ => []⟩

/-- Collaborators that always succeed, with fixed outputs. -/
def collabOk : Collab :=
  ⟨fun _ => .ok "text", fun _ => .ok (.obj []), fun _ => .ok [1]⟩

/-- C5: `index_file` on a path that does not exist raises
`FileNotFoundError`, leaves the store untouched and calls no
collaborator at all (empty call trace). -/
theorem index_file_missing_path_no_calls (c : Collab) (fs : FileSystem)
    (pid path : String) (store : List Point)
    (h : fs.pathExists path = false) :
    index_file c fs pid path store =
      ⟨some (.notFound ("File not found: " ++ path)), store, []⟩ := by
  simp [index_file, h]

/-- Witness for C5 at a concrete input. -/
theorem index_file_missing_path_no_calls_witness :
    index_file collabOk fsEmpty "id" "cvs/missing.pdf" [] =
      ⟨some (.notFound "File not found: cvs/missing.pdf"), [], []⟩ :=
  index_file_missing_path_no_calls collabOk fsEmpty "id" "cvs/missing.pdf" []
    rfl

theorem index_file_err_store (c : Collab) (fs : FileSystem)
    (pid path : String) (store : List Point) (e : PyErr)
    (h : (index_file c fs pid path store).err = some e) :
    (index_file c fs pid path store).store = store := by
  by_cases hp : fs.pathExists path
  · cases ht : c.extractText path with
    | error msg => simp [index_file, hp, ht]
    | ok text =>
      cases hm : extract_metadata (c.completionJson text) with
      | error msg => simp [index_file, hp, ht, hm]
      | ok metadata =>
        cases he : c.embed text with
        | error msg => simp [index_file, hp, ht, hm, he]
        | ok embedding => simp [index_file, hp, ht, hm, he] at h
  · simp [index_file, hp]

theorem index_file_err_no_upsert (c : Collab) (fs : FileSystem)
    (pid path : String) (store : List Point) (e : PyErr)
    (h : (index_file c fs pid path store).err = some e) :
    ∀ p, Call.upsertCall p ∉ (index_file c fs pid path store).trace := by
  intro p
  by_cases hp : fs.pathExists path
  · cases ht : c.extractText path with
    | error msg => simp [index_file, hp, ht]
    | ok text =>
      cases hm : extract_metadata (c.completionJson text) with
      | error msg => simp [index_file, hp, ht, hm]
      | ok metadata =>
        cases he : c.embed text with
        | error msg => simp [index_file, hp, ht, hm, he]
        | ok embedding => simp [index_file, hp, ht, hm, he] at h
  · simp [index_file, hp]

/-- C9: `index_file` is atomic with respect to the store.  If it fails,
the store is unchanged and no upsert call was made; if it succeeds, all
three prior steps succeeded and the trace is exactly text extraction,
then the completion call, then the embedding call, then one upsert of
the assembled point. -/
theorem index_file_atomic (c : Collab) (fs : FileSystem)
    (pid path : String) (store : List Point) :
    (∀ e, (index_file c fs pid path store).err = some e →
      (index_file c fs pid path store).store = store ∧
      ∀ p, Call.upsertCall p ∉ (index_file c fs pid path store).trace) ∧
    ((index_file c fs pid path store).err = none →
      ∃ text metadata embedding,
        c.extractText path = .ok text ∧
        extract_metadata (c.completionJson text) = .ok metadata ∧
        c.embed text = .ok embedding ∧
        index_file c fs pid path store =
          ⟨none,
           store ++
             [⟨pid, embedding,
               [("text", Json.str text),
                ("filename", Json.str (basename path)),
                ("filepath", Json.str path),
                ("metadata", metadata)]⟩],
           [.extractTextCall path, .completionCall text, .embedCall text,
            .upsertCall
              ⟨pid, embedding,
               [("text", Json.str text),
                ("filename", Json.str (basename path)),
                ("filepath", Json.str path),
                ("metadata", metadata)]⟩]⟩) := by
  constructor
  · intro e he
    exact ⟨index_file_err_store c fs pid path store e he,
      index_file_err_no_upsert c fs pid path store e he⟩
  · intro hok
    by_cases hp : fs.pathExists path
    · cases ht : c.extractText path with
      | error msg => simp [index_file, hp, ht] at hok
      | ok text =>
        cases hm : extract_metadata (c.completionJson text) with
        | error msg => simp [index_file, hp, ht, hm] at hok
        | ok metadata =>
          cases he : c.embed text with
          | error msg => simp [index_file, hp, ht, hm, he] at hok
          | ok embedding =>
            exact ⟨text, metadata, embedding, rfl, hm, he,
              by simp [index_file, hp, ht, hm, he]⟩
    · simp [index_file, hp] at hok

/-- Witness for C9 at concrete inputs: a successful run reports no
error, and a failing run (missing file) leaves the empty store empty
with no upsert call in its trace. -/
theorem index_file_atomic_witness :
    (index_file collabOk fsAll "id" "cvs/a.pdf" []).err = none ∧
    (index_file collabOk fsEmpty "id" "cvs/b.pdf" []).store = [] ∧
    Call.upsertCall ⟨"id", [1], []⟩ ∉
      (index_file collabOk fsEmpty "id" "cvs/b.pdf" []).trace := by
  refine ⟨rfl, ?_, ?_⟩
  · exact ((index_file_atomic collabOk fsEmpty "id" "cvs/b.pdf" []).1
      (.notFound ("File not found: " ++ "cvs/b.pdf")) rfl).1
  · exact ((index_file_atomic collabOk fsEmpty "id" "cvs/b.pdf" []).1
      (.notFound ("File not found: " ++ "cvs/b.pdf")) rfl).2 ⟨"id", [1], []⟩

/-- The number of `.pdf` entries in a listing prefix — the number of
fresh point ids the directory loop consumes while processing it. -/
def countPdf (files : List String) : Nat :=
  (files.filter fun f => pyEndsWith f ".pdf").length

theorem index_dir_go_append (c : Collab) (fs : FileSystem)
    (genId : Nat → String) (dir : String) (pre rest : List String) :
    ∀ k store, (index_dir_go c fs genId dir pre k store).err = none →
      index_dir_go c fs genId dir (pre ++ rest) k store =
        ⟨(index_dir_go c fs genId dir rest (k + countPdf pre)
            (index_dir_go c fs genId dir pre k store).store).err,
         (index_dir_go c fs genId dir rest (k + countPdf pre)
            (index_dir_go c fs genId dir pre k store).store).store,
         (index_dir_go c fs genId dir pre k store).trace ++
           (index_dir_go c fs genId dir rest (k + countPdf pre)
             (index_dir_go c fs genId dir pre k store).store).trace⟩ := by
  induction pre with
  | nil => intro k store _; simp [index_dir_go, countPdf]
  | cons f pre' ih =>
    intro k store hok
    by_cases hf : pyEndsWith f ".pdf"
    · rcases hres : index_file c fs (genId k) (dir ++ "/" ++ f) store with
        ⟨err₁, store₁, calls₁⟩
      cases err₁ with
      | some e =>
        rw [index_dir_go, if_pos hf, hres] at hok
        simp at hok
      | none =>
        have hcount : countPdf (f :: pre') = countPdf pre' + 1 := by
          simp [countPdf, hf, Nat.add_comm]
        rw [index_dir_go, if_pos hf, hres] at hok
        simp only [List.cons_append]
        rw [index_dir_go, if_pos hf, hres, index_dir_go, if_pos hf, hres]
        simp only [] at hok ⊢
        rw [ih (k + 1) store₁ hok]
        have harith : k + 1 + countPdf pre' = k + countPdf (f :: pre') := by
          rw [hcount]; omega
        rw [harith]
        simp [List.append_assoc]
    · have hcount : countPdf (f :: pre') = countPdf pre' := by
        simp [countPdf, hf]
      rw [index_dir_go, if_neg hf] at hok
      simp only [List.cons_append]
      rw [index_dir_go, if_neg hf, index_dir_go, if_neg hf]
      rw [ih k store hok, hcount]

/-- C6: if every `.pdf` file before `f` in the directory listing ingests
successfully and ingesting `f` fails, then `index_directory` fails with
exactly that error, its store is the store after the files before `f`
(they remain ingested, and `f` added nothing), and its call trace stops
with `f`'s calls — nothing after `f` is processed. -/
theorem index_directory_stops_at_first_failure (c : Collab)
    (fs : FileSystem) (genId : Nat → String) (dir : String)
    (pre post : List String) (f : String) (store : List Point) (e : PyErr)
    (hdir : fs.pathExists dir = true)
    (hlist : fs.listdir dir = pre ++ f :: post)
    (hpre : (index_dir_go c fs genId dir pre 0 store).err = none)
    (hf : pyEndsWith f ".pdf" = true)
    (hfail : (index_file c fs (genId (countPdf pre)) (dir ++ "/" ++ f)
        (index_dir_go c fs genId dir pre 0 store).store).err = some e) :
    index_directory c fs genId dir store =
      ⟨some e,
       (index_dir_go c fs genId dir pre 0 store).store,
       (index_dir_go c fs genId dir pre 0 store).trace ++
         (index_file c fs (genId (countPdf pre)) (dir ++ "/" ++ f)
           (index_dir_go c fs genId dir pre 0 store).store).trace⟩ := by
  have hstore := index_file_err_store c fs (genId (countPdf pre))
    (dir ++ "/" ++ f) (index_dir_go c fs genId dir pre 0 store).store e hfail
  rw [index_directory, if_pos hdir, hlist,
    index_dir_go_append c fs genId dir pre (f :: post) 0 store hpre]
  rcases hres : index_file c fs (genId (0 + countPdf pre)) (dir ++ "/" ++ f)
      (index_dir_go c fs genId dir pre 0 store).store with ⟨err₁, store₁, calls₁⟩
  rw [Nat.zero_add] at hres
  rw [hres] at hfail hstore
  simp only [] at hfail hstore
  subst hfail hstore
  rw [index_dir_go, if_pos hf, Nat.zero_add, hres]

/-- Collaborators that fail text extraction on one specific file and
succeed everywhere else. -/
def collabFailBad : Collab :=
  ⟨fun p => if p = "cvs/bad.pdf" then .error "boom" else .ok "text",
   fun _ => .ok (.obj []),
   fun _ => .ok [1]⟩

/-- A filesystem whose directories list `a.pdf`, `bad.pdf`, `c.pdf`. -/
def fsThree : FileSystem :=
  ⟨fun _ => true, fun _ => ["a.pdf", "bad.pdf", "c.pdf"]⟩

/-- A fixed id generator. -/
def genIdConst : Nat → String := fun _ => "id"

/-- Witness for C6 at a concrete directory: `a.pdf` ingests, `bad.pdf`
fails text extraction, and `index_directory` stops there with `bad.pdf`'s
error, keeping `a.pdf`'s record and never touching `c.pdf`. -/
theorem index_directory_stops_at_first_failure_witness :
    index_directory collabFailBad fsThree genIdConst "cvs" [] =
      ⟨some (.exc "Error extracting text from PDF cvs/bad.pdf: boom"),
       (index_dir_go collabFailBad fsThree genIdConst "cvs" ["a.pdf"] 0
         []).store,
       (index_dir_go collabFailBad fsThree genIdConst "cvs" ["a.pdf"] 0
           []).trace ++
         (index_file collabFailBad fsThree
           (genIdConst (countPdf ["a.pdf"])) ("cvs" ++ "/" ++ "bad.pdf")
           (index_dir_go collabFailBad fsThree genIdConst "cvs" ["a.pdf"] 0
             []).store).trace⟩ :=
  index_directory_stops_at_first_failure collabFailBad fsThree genIdConst
    "cvs" ["a.pdf"] ["c.pdf"] "bad.pdf" []
    (.exc "Error extracting text from PDF cvs/bad.pdf: boom")
    rfl rfl rfl rfl rfl

theorem index_dir_go_filter (c : Collab) (fs : FileSystem)
    (genId : Nat → String) (dir : String) :
    ∀ (files : List String) (k : Nat) (store : List Point),
      index_dir_go c fs genId dir files k store =
        index_dir_go c fs genId dir
          (files.filter fun f => pyEndsWith f ".pdf") k store := by
  intro files
  induction files with
  | nil => intro k store; rfl
  | cons f rest ih =>
    intro k store
    by_cases hf : pyEndsWith f ".pdf"
    · simp only [List.filter_cons, hf, if_pos]
      rw [index_dir_go, index_dir_go, if_pos hf, if_pos hf]
      rcases hres : index_file c fs (genId k) (dir ++ "/" ++ f) store with
        ⟨err₁, store₁, calls₁⟩
      cases err₁ with
      | some e => rfl
      | none => simp only []; rw [ih]
    · simp only [List.filter_cons, hf, Bool.false_eq_true, if_false]
      rw [index_dir_go, if_neg hf]
      exact ih k store

theorem index_file_never_notFound_on_existing (c : Collab)
    (fs : FileSystem) (pid path : String) (store : List Point)
    (hp : fs.pathExists path = true) :
    ∀ m, (index_file c fs pid path store).err ≠ some (.notFound m) := by
  intro m
  cases ht : c.extractText path with
  | error msg => simp [index_file, hp, ht]
  | ok text =>
    cases hm : extract_metadata (c.completionJson text) with
    | error msg => simp [index_file, hp, ht, hm]
    | ok metadata =>
      cases he : c.embed text with
      | error msg => simp [index_file, hp, ht, hm, he]
      | ok embedding => simp [index_file, hp, ht, hm, he]

theorem index_dir_go_never_notFound (c : Collab) (fs : FileSystem)
    (genId : Nat → String) (dir : String) :
    ∀ (files : List String) (k : Nat) (store : List Point),
      (∀ f ∈ files, pyEndsWith f ".pdf" = true →
        fs.pathExists (dir ++ "/" ++ f) = true) →
      ∀ m, (index_dir_go c fs genId dir files k store).err ≠
        some (.notFound m) := by
  intro files
  induction files with
  | nil => intro k store _ m; simp [index_dir_go]
  | cons f rest ih =>
    intro k store hcons m
    by_cases hf : pyEndsWith f ".pdf"
    · rw [index_dir_go, if_pos hf]
      rcases hres : index_file c fs (genId k) (dir ++ "/" ++ f) store with
        ⟨err₁, store₁, calls₁⟩
      cases err₁ with
      | some e =>
        have h1 := index_file_never_notFound_on_existing c fs (genId k)
          (dir ++ "/" ++ f) store (hcons f (List.mem_cons_self f rest) hf) m
        rw [hres] at h1
        simpa using h1
      | none =>
        exact ih (k + 1) store₁
          (fun g hg => hcons g (List.mem_cons_of_mem f hg)) m
    · rw [index_dir_go, if_neg hf]
      exact ih k store (fun g hg => hcons g (List.mem_cons_of_mem f hg)) m

/-- C10: the directory loop is insensitive to listing entries whose name
does not end in the literal lowercase `.pdf` — running it on the listing
equals running it on the listing filtered to `.pdf` entries, and
`RESUME.PDF` fails that test (case sensitivity); a directory whose
listing has no `.pdf` entry completes with no error, unchanged store and
no calls; and when every listed `.pdf` entry exists on the filesystem, a
`FileNotFoundError` out of `index_directory` can only mean the directory
path itself does not exist. -/
theorem index_directory_pdf_selection (c : Collab) (fs : FileSystem)
    (genId : Nat → String) (dir : String) (store : List Point) :
    index_dir_go c fs genId dir (fs.listdir dir) 0 store =
      index_dir_go c fs genId dir
        ((fs.listdir dir).filter fun f => pyEndsWith f ".pdf") 0 store ∧
    pyEndsWith "RESUME.PDF" ".pdf" = false ∧
    (fs.pathExists dir = true →
      ((fs.listdir dir).filter fun f => pyEndsWith f ".pdf") = [] →
      index_directory c fs genId dir store = ⟨none, store, []⟩) ∧
    ((∀ f ∈ fs.listdir dir, pyEndsWith f ".pdf" = true →
        fs.pathExists (dir ++ "/" ++ f) = true) →
      ∀ m, (index_directory c fs genId dir store).err =
          some (.notFound m) →
        fs.pathExists dir = false) := by
  refine ⟨index_dir_go_filter c fs genId dir (fs.listdir dir) 0 store,
    by decide, ?_, ?_⟩
  · intro hd hfil
    rw [index_directory, if_pos hd, index_dir_go_filter, hfil]
    rfl
  · intro hcons m herr
    by_cases hd : fs.pathExists dir
    · exfalso
      rw [index_directory, if_pos hd] at herr
      exact index_dir_go_never_notFound c fs genId dir (fs.listdir dir) 0
        store hcons m herr
    · simpa using hd

/-- A filesystem whose directories list no `.pdf` entry. -/
def fsNoPdf : FileSystem :=
  ⟨fun _ => true, fun _ => ["notes.txt", "RESUME.PDF"]⟩

/-- Witness for C10 at concrete inputs: a listing of `notes.txt` and
`RESUME.PDF` ingests nothing and succeeds, and on a nonexistent
directory path the raised `FileNotFoundError` indeed coincides with the
path not existing. -/
theorem index_directory_pdf_selection_witness :
    index_directory collabOk fsNoPdf genIdConst "cvs" [] =
      ⟨none, [], []⟩ ∧
    fsEmpty.pathExists "cvs" = false := by
  constructor
  · exact (index_directory_pdf_selection collabOk fsNoPdf genIdConst "cvs"
      []).2.2.1 rfl rfl
  · exact (index_directory_pdf_selection collabOk fsEmpty genIdConst "cvs"
      []).2.2.2 (fun f hf => by simp [fsEmpty] at hf)
      "Directory not found: cvs" rfl

/-! ## Collection management (src/indexer.py, `_ensure_collection_exists`) -/

/-- Qdrant distance metrics (`models.Distance`). -/
inductive Distance where
  | cosine
  | euclid
  | dot
deriving Repr, DecidableEq

/-- A Qdrant collection as `_ensure_collection_exists` sees it: a name
and a vector configuration (size and distance). -/
structure Collection where
  name : String
  size : Nat
  distance : Distance
deriving Repr

/-- Store operations issued by `_ensure_collection_exists`. -/
inductive CollectionCall where
  | getCollectionsCall
  | createCollectionCall (name : String) (size : Nat) (d : Distance)
deriving Repr

/-- Model of `Indexer._ensure_collection_exists` (src/indexer.py lines 164-176):
list the collections; if none bears the configured name, create one with
the configured embedding dimension and cosine distance, else do nothing.
Returns the resulting collection list and the store calls made.  `dim`
is the `EMBEDDING_DIMENSION` environment value. -/
def ensure_collection_exists (dim : Nat) (name : String)
    (cols : List Collection) : List Collection × List CollectionCall :=
  if cols.any fun col => col.name == name then
    (cols, [.getCollectionsCall])
  else
    (cols ++ [⟨name, dim, .cosine⟩],
     [.getCollectionsCall, .createCollectionCall name dim .cosine])

/-- C7: `_ensure_collection_exists` is idempotent.  When a collection
with the name exists it issues no create call and leaves the collection
list unchanged; when none exists it creates exactly one collection with
the given dimension and cosine distance; and a second call on the result
of a first call is always a no-op. -/
theorem ensure_collection_exists_idempotent (dim : Nat) (name : String)
    (cols : List Collection) :
    ((∃ col ∈ cols, col.name = name) →
      ensure_collection_exists dim name cols = (cols, [.getCollectionsCall])) ∧
    ((¬ ∃ col ∈ cols, col.name = name) →
      ensure_collection_exists dim name cols =
        (cols ++ [⟨name, dim, .cosine⟩],
         [.getCollectionsCall, .createCollectionCall name dim .cosine])) ∧
    ensure_collection_exists dim name
        (ensure_collection_exists dim name cols).1 =
      ((ensure_collection_exists dim name cols).1,
       [.getCollectionsCall]) := by
  refine ⟨?_, ?_, ?_⟩
  · intro hex
    have h : cols.any (fun col => col.name == name) = true := by
      rcases hex with ⟨col, hmem, hname⟩
      simp [List.any_eq_true]
      exact ⟨col, hmem, hname⟩
    simp [ensure_collection_exists, h]
  · intro hnex
    have h : cols.any (fun col => col.name == name) = false := by
      rw [Bool.eq_false_iff]
      intro hc
      rw [List.any_eq_true] at hc
      rcases hc with ⟨col, hmem, hname⟩
      exact hnex ⟨col, hmem, by simpa using hname⟩
    simp [ensure_collection_exists, h]
  · by_cases h : cols.any (fun col => col.name == name) = true
    · simp [ensure_collection_exists, h]
    · rw [Bool.not_eq_true] at h
      simp [ensure_collection_exists, h, List.any_append]

/-- Witness for C7 at concrete inputs: with a one-collection list the
call is a no-op; starting from no collections it creates the cosine
collection; the second call after that is a no-op. -/
theorem ensure_collection_exists_idempotent_witness :
    ensure_collection_exists 768 "documents" [⟨"documents", 768, .cosine⟩] =
      ([⟨"documents", 768, .cosine⟩], [.getCollectionsCall]) ∧
    ensure_collection_exists 768 "documents" [] =
      ([⟨"documents", 768, .cosine⟩],
       [.getCollectionsCall, .createCollectionCall "documents" 768 .cosine]) ∧
    ensure_collection_exists 768 "documents"
        (ensure_collection_exists 768 "documents" []).1 =
      ((ensure_collection_exists 768 "documents" []).1,
       [.getCollectionsCall]) := by
  refine ⟨?_, ?_, ?_⟩
  · exact (ensure_collection_exists_idempotent 768 "documents"
      [⟨"documents", 768, .cosine⟩]).1
      ⟨⟨"documents", 768, .cosine⟩, List.mem_cons_self _ _, rfl⟩
  · exact (ensure_collection_exists_idempotent 768 "documents" []).2.1
      (by simp)
  · exact (ensure_collection_exists_idempotent 768 "documents" []).2.2

/-! ## Timeouts on outbound HTTP calls -/

/-- The shape of an outbound `requests.post` call: its URL and the
`timeout` keyword if one is passed (`none` means the `requests` default,
which waits indefinitely). -/
structure HttpPost where
  url : String
  timeout : Option Nat
deriving Repr, DecidableEq

/-- The completion request issued by `MetaDataExtractor._call_openai`
(src/indexer.py lines 74-79): `timeout=120` is passed explicitly. -/
def completionRequest (base_url : String) : HttpPost :=
  ⟨base_url ++ "/chat/completions", some 120⟩

/-- The embedding request issued by `Indexer._get_embeddings`
(src/indexer.py lines 197-201): no `timeout` keyword. -/
def indexerEmbeddingsRequest (base_url : String) : HttpPost :=
  ⟨base_url ++ "/embeddings", none⟩

/-- The embedding request issued by the server's `_get_embeddings`
(src/server.py lines 157-161): no `timeout` keyword. -/
def serverEmbeddingsRequest (base_url : String) : HttpPost :=
  ⟨base_url ++ "/embeddings", none⟩

/-- C8 (amended): only the completion call carries a bounded timeout
(120 seconds); the embedding calls on the ingestion path and on the
query path are both issued without one. -/
theorem external_call_timeouts (base_url : String) :
    (completionRequest base_url).timeout = some 120 ∧
    (indexerEmbeddingsRequest base_url).timeout = none ∧
    (serverEmbeddingsRequest base_url).timeout = none :=
  ⟨rfl, rfl, rfl⟩

/-- C8 counterexample: the two embedding calls are concrete external
calls issued with NO bounded timeout, refuting "every external call is
issued with a bounded timeout". -/
theorem embeddings_requests_unbounded :
    (indexerEmbeddingsRequest "http://localhost:11434/v1").timeout = none ∧
    (serverEmbeddingsRequest "http://localhost:11434/v1").timeout = none :=
  ⟨rfl, rfl⟩
